import Mathlib

/-!
Verification development for the gold-deal-finder repository.

The Python sources are shallowly embedded: pure numeric logic is translated
to functions over `ℚ` (Python floats are modelled as exact rationals, with
`round(x, 2)` modelled by rounding to the nearest multiple of 1/100), the
regex layer of the title parser is abstracted into a structured record of
what each regex pass matched, and the stateful spot-price cache is modelled
by explicit state passing.
-/

namespace GoldDealFinder

/-- models the Python builtin round with two decimal places. -/
def round2 (q : ℚ) : ℚ := ((round (q * 100) : ℤ) : ℚ) / 100

/-! ### Title parser (`gold_scraper.GoldScraper.extract_purity_and_weight`)

The regex layer is abstracted: a `TitleScan` records, for one title, what
each regex pass of the source matched on the lowercased title.  All the
decision logic that follows the regex matches in the source (branch order,
the 0.01 g tolerance, the `[0.001, 1000]` range filter, the purity-code
exclusion, the all-equal check and the summing) is carried out here. -/

structure TitleScan where
  /-- models the parenthetical regex pass of the source — a number with an
  optional gram unit directly before a parenthesis, together with the
  findall of gram-numbers inside the parenthesis: the weight in front of
  the parenthesis and the raw weights found inside it. -/
  parenMatch : Option (ℚ × List ℚ)
  /-- whether the lowercased title contains a plus sign. -/
  hasPlus : Bool
  /-- for each part of the plus-sign split of the lowercased title that has
  a gram-number match, that matched weight (raw, before the range filter
  of the source). -/
  plusSegmentWeights : List ℚ
  /-- the hyphen regex pass of the source: a gram-number directly after a
  hyphen. -/
  hyphenMatch : Option ℚ
  /-- every match of the five general weight patterns of the source — a
  number adjacent to a gram unit token gm, gram, g, grams or gr — in scan
  order (raw, before the purity-code and range filters of the source). -/
  generalMatches : List ℚ
  deriving DecidableEq

/-- the purity codes excluded by the general weight scan. -/
def purityCodes : List ℚ := [24, 22, 18, 14, 999, 916, 750, 585]

/-- the range filter of the source: weight between 0.001 and 1000. -/
def weightInRange (w : ℚ) : Bool := 1/1000 ≤ w ∧ w ≤ 1000

/-- SPECIAL CASE 4 of `extract_purity_and_weight`: the general weight scan.
Filters out purity codes and out-of-range values; if all remaining
candidates are equal, returns the first, otherwise their sum. -/
def extractWeightGeneral (t : TitleScan) : Option ℚ :=
  let allWeights := t.generalMatches.filter
    (fun w => decide (w ∉ purityCodes) && weightInRange w)
  match allWeights with
  | [] => none
  | w :: rest => if rest.all (fun x => x == w) then some w else some ((w :: rest).sum)

/-- SPECIAL CASE 3: a weight following a hyphen is used directly. -/
def extractWeightHyphen (t : TitleScan) : Option ℚ :=
  match t.hyphenMatch with
  | some w => some w
  | none => extractWeightGeneral t

/-- SPECIAL CASE 2: a title containing `+` sums the in-range per-segment
weights, when any exist. -/
def extractWeightPlus (t : TitleScan) : Option ℚ :=
  if t.hasPlus then
    let plusWeights := t.plusSegmentWeights.filter weightInRange
    if plusWeights.isEmpty then extractWeightHyphen t
    else some plusWeights.sum
  else extractWeightHyphen t

/-- weight extraction of `extract_purity_and_weight`: SPECIAL CASE 1
(parenthetical breakdown) first — when an outer weight is followed by a
parenthesis whose inner weights sum to it within 0.01, the outer weight is
returned; otherwise control falls through to the later cases. -/
def extractWeight (t : TitleScan) : Option ℚ :=
  match t.parenMatch with
  | some (outer, insides) =>
    if insides ≠ [] ∧ |outer - insides.sum| < 1/100 then some outer
    else extractWeightPlus t
  | none => extractWeightPlus t

/-! ### Type classifier (`gold_scraper.GoldScraper.determine_product_type`) -/

def coinKeywords : List String :=
  ["coin", "sovereign", "bar", "biscuit", "ingot", "bullion", "investment"]

def jewelleryKeywords : List String :=
  ["chain", "pendant", "ring", "bangle", "bracelet", "earring",
   "necklace", "mangalsutra", "jewellery", "jewelry", "ornament"]

/-- the lowercased concatenation of title, a space and description, as a
character list. -/
def classifierText (title description : String) : List Char :=
  (title ++ " " ++ description).data.map Char.toLower

/-- the number of coin keywords that occur in the classifier text. -/
def coinCount (title description : String) : Nat :=
  coinKeywords.countP (fun kw => decide (kw.data <:+: classifierText title description))

/-- the number of jewellery keywords that occur in the classifier text. -/
def jewelleryCount (title description : String) : Nat :=
  jewelleryKeywords.countP (fun kw => decide (kw.data <:+: classifierText title description))

/-- models determine_product_type: the string coin when the coin keyword
count strictly exceeds the jewellery keyword count, else jewellery. -/
def determineProductType (title description : String) : String :=
  if jewelleryCount title description < coinCount title description then "coin"
  else "jewellery"

/-! ### Price calculator (`price_calculator.GoldPriceCalculator`) -/

/-- the GST_RATE constant of config, 3 percent. -/
def GST_RATE : ℚ := 3

/-- lookup in a Python dict modelled as an association list, with the
default of `dict.get(key, default)`. -/
def lookupD (l : List (String × ℚ)) (k : String) (d : ℚ) : ℚ :=
  match l.find? (fun p => p.1 == k) with
  | some p => p.2
  | none => d

/-- the PURITY_MAPPING table of config. -/
def PURITY_MAPPING : List (String × ℚ) :=
  [("24K", 999/1000), ("22K", 9167/10000), ("18K", 750/1000), ("14K", 585/1000),
   ("916", 9167/10000), ("999", 999/1000), ("750", 750/1000), ("585", 585/1000)]

/-- the MAKING_CHARGES table (all entries 0.00 in the source). -/
def MAKING_CHARGES : List (String × ℚ) :=
  [("coin_24K", 0), ("coin_22K", 0), ("jewellery_24K", 0),
   ("jewellery_22K", 0), ("jewellery_18K", 0), ("jewellery_14K", 0)]

/-- troy-ounce-to-gram constant 31.1035. -/
def OZ_TO_GRAM : ℚ := 311035/10000
/-- landed-price multiplier 1.11. -/
def LANDED_MULTIPLIER : ℚ := 111/100
/-- retail spread 700 (per 10 g). -/
def RETAIL_SPREAD : ℚ := 700
/-- RTGS discount 600 (per 10 g). -/
def RTGS_DISCOUNT : ℚ := 600
/-- jewellery premium 1200 (per 10 g). -/
def JEWELLERY_PREMIUM_22K : ℚ := 1200

/-- the `gold` sub-dictionary of a price snapshot. -/
structure GoldTable where
  spot_10g : ℚ
  retail_999_10g : ℚ
  rtgs_999_10g : ℚ
  withGst_999_10g : ℚ
  retail_22k_10g : ℚ
  retail_22k_with_gst_10g : ℚ
  pg_999_spot : ℚ
  pg_999_landed : ℚ
  pg_22k_spot : ℚ
  pg_22k_landed : ℚ
  deriving DecidableEq

/-- a price snapshot as produced by the endpoint parsers, the fallback
calculator, or read back from `bullion_cache.json`.  `timestamp` is a
point in time in seconds; `rawGoldByKarat` models
the goldByKarat table of the raw upstream payload when the snapshot
carries one. -/
structure Snapshot where
  timestamp : ℚ
  source : String
  spot_price_per_gram : ℚ
  gold : GoldTable
  silver_per_gram : ℚ
  silver_per_kg : ℚ
  rawGoldByKarat : Option (List (String × ℚ))
  deriving DecidableEq

/-- cache time-to-live of 300 seconds. -/
def CACHE_TTL : ℚ := 300
/-- minimum interval of 2 seconds between API calls. -/
def MIN_API_INTERVAL : ℚ := 2

/-- models the cache validity check of the source: the cached timestamp is
younger than the TTL. -/
def isCacheValid (c : Snapshot) (now : ℚ) : Bool := decide (now - c.timestamp < CACHE_TTL)

/-- the hardcoded floor snapshot of the fallback calculator, built from a
gold price per gram of 7010.4176. -/
def hardcodedFallback (now : ℚ) : Snapshot :=
  let goldPerGram : ℚ := 70104176/10000
  let spot10g := goldPerGram * 10
  let landed10g := spot10g * LANDED_MULTIPLIER
  let retail999 := landed10g + RETAIL_SPREAD
  let rtgs999 := landed10g - RTGS_DISCOUNT
  let gst999 := rtgs999 * (1 + GST_RATE/100)
  let base22k := landed10g * (9167/10000)
  let retail22k := base22k + JEWELLERY_PREMIUM_22K
  let retail22kGst := retail22k * (1 + GST_RATE/100)
  { timestamp := now
    source := "hardcoded_fallback"
    spot_price_per_gram := goldPerGram
    gold :=
    { spot_10g := round2 spot10g
      retail_999_10g := round2 retail999
      rtgs_999_10g := round2 rtgs999
      withGst_999_10g := round2 gst999
      retail_22k_10g := round2 retail22k
      retail_22k_with_gst_10g := round2 retail22kGst
      pg_999_spot := goldPerGram
      pg_999_landed := round2 (goldPerGram * LANDED_MULTIPLIER)
      pg_22k_spot := round2 (goldPerGram * (9167/10000))
      pg_22k_landed := round2 (goldPerGram * (9167/10000) * LANDED_MULTIPLIER) }
    silver_per_gram := round2 (goldPerGram / 80)
    silver_per_kg := round2 (goldPerGram / 80 * 1000)
    rawGoldByKarat := none }

/-- models the fallback price calculator of the source: re-tag the last
cached snapshot cached_fallback with a fresh timestamp when one exists,
else the hardcoded floor snapshot. -/
def calculateFallbackPrices (cache : Option Snapshot) (now : ℚ) : Snapshot :=
  match cache with
  | some c => { c with source := "cached_fallback", timestamp := now }
  | none => hardcodedFallback now

/-- the state the spot-price getter runs against: the persisted cache
file, the clock, the last-API-call marker, and what each configured
endpoint (in priority order) would deliver — none models a failed
fetch. -/
structure PriceEnv where
  cache : Option Snapshot
  now : ℚ
  lastApiCall : ℚ
  fetchResults : List (Option Snapshot)
  deriving DecidableEq

/-- the observable outcome of one spot-price-getter call: the returned
snapshot, how many upstream endpoints were attempted, and what was
written to the cache file (if anything). -/
structure FetchOutcome where
  snapshot : Snapshot
  apiAttempts : Nat
  cacheWritten : Option Snapshot
  deriving DecidableEq

/-- the endpoint loop of the source: first successful result together
with the number of endpoints attempted. -/
def firstSuccess : List (Option Snapshot) → Option (Snapshot × Nat)
  | [] => none
  | none :: rest =>
    match firstSuccess rest with
    | some (s, n) => some (s, n + 1)
    | none => none
  | some s :: _ => some (s, 1)

/-- the cache-hit check of the getter (source lines 266-270): unless a
refresh is forced, a present and valid cached snapshot is returned as
is. -/
def cacheHit (env : PriceEnv) (forceRefresh : Bool) : Option Snapshot :=
  if forceRefresh then none
  else match env.cache with
    | some c => if isCacheValid c env.now then some c else none
    | none => none

/-- models get_live_gold_price: cache hit, else the rate-limited path
(any present cache re-tagged cached_rate_limited), else try the
endpoints in order, persisting the first success; when every endpoint
fails, the fallback calculator. -/
def getLiveGoldPrice (env : PriceEnv) (forceRefresh : Bool) : FetchOutcome :=
  match cacheHit env forceRefresh with
  | some c => { snapshot := c, apiAttempts := 0, cacheWritten := none }
  | none =>
    let rateLimited := decide (env.now - env.lastApiCall < MIN_API_INTERVAL)
    match rateLimited, env.cache with
    | true, some c =>
      { snapshot := { c with source := "cached_rate_limited" },
        apiAttempts := 0, cacheWritten := none }
    | _, _ =>
      match firstSuccess env.fetchResults with
      | some (s, n) => { snapshot := s, apiAttempts := n, cacheWritten := some s }
      | none =>
        { snapshot := calculateFallbackPrices env.cache env.now,
          apiAttempts := env.fetchResults.length, cacheWritten := none }

/-! ### Expected price model (`GoldPriceCalculator.calculate_expected_price`) -/

/-- the Python value handed to the product-type parameter of the
expected-price calculator: the documented call passes a string, but the
scraper call sites pass a boolean. -/
inductive PyProductType where
  | str (s : String)
  | bool (b : Bool)
  deriving DecidableEq

/-- Python equality between the product-type argument and a string
literal: a boolean never equals a string. -/
def pyEqStr (pt : PyProductType) (s : String) : Bool :=
  match pt with
  | .str t => t == s
  | .bool _ => false

/-- source lines 391-394: a coin-prefixed key when the product type equals
the string coin, else a jewellery-prefixed key. -/
def chargesKey (pt : PyProductType) (purity : String) : String :=
  if pyEqStr pt "coin" then "coin_" ++ purity else "jewellery_" ++ purity

/-- source lines 397-400: the making-charges table looked up at the
charges key, defaulting to 0.12 when the product type equals the string
jewellery and to 0.04 otherwise. -/
def makingChargesPercent (pt : PyProductType) (purity : String) : ℚ :=
  lookupD MAKING_CHARGES (chargesKey pt purity)
    (if pyEqStr pt "jewellery" then 12/100 else 4/100)

/-- source lines 371-385: the per-gram base price — the landed 999
per-gram price for 24K; otherwise the raw per-karat table entry (divided
by 10) when the snapshot carries one that is positive, else the landed
999 price scaled by the purity factor. -/
def basePricePerGram (snap : Snapshot) (purity : String) (purityFactor : ℚ) : ℚ :=
  if purity == "24K" then snap.gold.pg_999_landed
  else
    match snap.rawGoldByKarat with
    | some tbl =>
      let karatPrice10g := lookupD tbl purity 0
      if 0 < karatPrice10g then karatPrice10g / 10
      else snap.gold.pg_999_landed * purityFactor
    | none => snap.gold.pg_999_landed * purityFactor

/-- the dictionary returned by the expected-price calculator. -/
structure ExpectedPriceResult where
  source : String
  spot_price_per_gram : ℚ
  landed_price_per_gram : ℚ
  gold_value : ℚ
  making_charges : ℚ
  making_charges_percent : ℚ
  gst : ℚ
  gst_percent : ℚ
  total_expected : ℚ
  price_per_gram : ℚ
  purity_factor : ℚ
  timestamp : ℚ
  deriving DecidableEq

/-- models calculate_expected_price, parameterised by the snapshot the
spot-price getter returned. -/
def calculateExpectedPrice (snap : Snapshot) (weight : ℚ) (purity : String)
    (productType : PyProductType) : ExpectedPriceResult :=
  let purityFactor := lookupD PURITY_MAPPING purity (9167/10000)
  let basePerGram := basePricePerGram snap purity purityFactor
  let goldValue := basePerGram * weight
  let pct := makingChargesPercent productType purity
  let makingCharges := goldValue * pct
  let gstAmount := (goldValue + makingCharges) * (GST_RATE/100)
  let totalExpected := goldValue + makingCharges + gstAmount
  let pricePerGram := if 0 < weight then totalExpected / weight else 0
  { source := snap.source
    spot_price_per_gram := snap.spot_price_per_gram
    landed_price_per_gram := basePerGram
    gold_value := round2 goldValue
    making_charges := round2 makingCharges
    making_charges_percent := round2 (pct * 100)
    gst := round2 gstAmount
    gst_percent := GST_RATE
    total_expected := round2 totalExpected
    price_per_gram := round2 pricePerGram
    purity_factor := purityFactor
    timestamp := snap.timestamp }

/-- the expected-price calculator including its internal spot-price
getter call (no forced refresh). -/
def calculateExpectedPriceFull (env : PriceEnv) (weight : ℚ) (purity : String)
    (productType : PyProductType) : ExpectedPriceResult :=
  calculateExpectedPrice (getLiveGoldPrice env false).snapshot weight purity productType

/-- models calculate_discount_percentage of the source. -/
def calculateDiscountPercentage (sellingPrice expectedPrice : ℚ) : ℚ :=
  if expectedPrice ≤ 0 then 0
  else round2 (max (((expectedPrice - sellingPrice) / expectedPrice) * 100) (-100))

/-- the scraper call sites (AJIO parser lines 272-274 and Myntra parser
lines 460-462): the expected-price calculator invoked with the boolean
jewellery flag in the product-type position. -/
def scraperExpectedPrice (snap : Snapshot) (weight : ℚ) (purity : String)
    (isJewellery : Bool) : ExpectedPriceResult :=
  calculateExpectedPrice snap weight purity (.bool isJewellery)

/-! ### Deal filter (`main.GoldDealFinder.filter_good_deals`) -/

/-- minimum discount threshold of -1 from config. -/
def MIN_DISCOUNT_PERCENTAGE : ℚ := -1
/-- minimum weight threshold of 0.5 from config. -/
def MIN_WEIGHT : ℚ := 1/2

/-- the per-purity price-per-gram caps of config with the default
entry. -/
def maxPricePerGram (purity : String) : ℚ :=
  lookupD [("24K", 18000), ("22K", 17000), ("18K", 16000), ("14K", 15000)]
    purity 14000

/-- the fields of a scraped product record that `filter_good_deals`
reads. -/
structure Product where
  source : String
  title : String
  weight_grams : ℚ
  purity : String
  discount_percent : ℚ
  price_per_gram : ℚ
  selling_price : ℚ
  deriving DecidableEq

/-- the de-duplication identity key: the source, the 50-character title
prefix and the weight, which the source interpolates into one
underscore-separated string. -/
def productKey (p : Product) : String × String × ℚ :=
  (p.source, p.title.take 50, p.weight_grams)

/-- the admission criteria of the deal filter (source lines 37-42). -/
def meetsCriteria (p : Product) : Bool :=
  decide (MIN_DISCOUNT_PERCENTAGE ≤ p.discount_percent) &&
  decide (MIN_WEIGHT ≤ p.weight_grams) &&
  decide (p.price_per_gram ≤ maxPricePerGram p.purity) &&
  decide (1000 < p.selling_price)

/-- the product loop of the deal filter: skip any product whose key is
already in the sent set; a product meeting the criteria is appended to
the deal list and its key added to the sent set.  Returns the
pre-truncation deal list and the final sent set. -/
def filterLoop (sent : List (String × String × ℚ)) :
    List Product → List Product × List (String × String × ℚ)
  | [] => ([], sent)
  | p :: rest =>
    if productKey p ∈ sent then filterLoop sent rest
    else if meetsCriteria p then
      let out := filterLoop (productKey p :: sent) rest
      (p :: out.1, out.2)
    else filterLoop sent rest

/-- models filter_good_deals: run the loop, then sort ascending by
discount (the Python sort is stable) and keep the first 4. -/
def filterGoodDeals (sent : List (String × String × ℚ)) (products : List Product) :
    List Product × List (String × String × ℚ) :=
  let out := filterLoop sent products
  ((out.1.mergeSort (fun a b => a.discount_percent ≤ b.discount_percent)).take 4, out.2)

/-! ### Shared lemmas -/

lemma round2_mono {a b : ℚ} (h : a ≤ b) : round2 a ≤ round2 b := by
  unfold round2
  have h1 : round (a * 100) ≤ round (b * 100) := by
    rw [round_eq, round_eq]
    exact Int.floor_mono (by linarith)
  have h2 : ((round (a * 100) : ℤ) : ℚ) ≤ ((round (b * 100) : ℤ) : ℚ) := by
    exact_mod_cast h1
  linarith

lemma round2_neg_hundred : round2 (-100) = -100 := by
  unfold round2
  norm_num [round_eq, Int.floor_eq_iff]

lemma hardcodedFallback_source (now : ℚ) :
    (hardcodedFallback now).source = "hardcoded_fallback" := rfl

lemma firstSuccess_eq_none {l : List (Option Snapshot)} (h : ∀ r ∈ l, r = none) :
    firstSuccess l = none := by
  induction l with
  | nil => rfl
  | cons a rest ih =>
    have ha : a = none := h a (List.mem_cons_self a rest)
    subst ha
    have : firstSuccess rest = none := ih (fun r hr => h r (List.mem_cons_of_mem _ hr))
    simp [firstSuccess, this]

/-! ### Claim theorems -/

/-- C3: `calculate_discount_percentage` returns 0 when the expected price
is nonpositive, otherwise the relative discount formula clamped from below
at the configured floor −100 (then rounded to 2 decimals); the result is
never below that floor no matter how large the selling price is. -/
theorem discount_clamped_at_floor (sellingPrice expectedPrice : ℚ) :
    (expectedPrice ≤ 0 → calculateDiscountPercentage sellingPrice expectedPrice = 0) ∧
    (0 < expectedPrice → calculateDiscountPercentage sellingPrice expectedPrice =
      round2 (max (((expectedPrice - sellingPrice) / expectedPrice) * 100) (-100))) ∧
    (-100 : ℚ) ≤ calculateDiscountPercentage sellingPrice expectedPrice := by
  unfold calculateDiscountPercentage
  split_ifs with h
  · refine ⟨fun _ => rfl, fun h0 => absurd h (not_le.mpr h0), by norm_num⟩
  · refine ⟨fun h0 => absurd h0 h, fun _ => rfl, ?_⟩
    calc (-100 : ℚ) = round2 (-100) := round2_neg_hundred.symm
    _ ≤ _ := round2_mono (le_max_right _ _)

/-- C3 witness: at selling price 150 and expected price 100 the discount is
the clamped formula value −50, and at expected price 0 the result is 0. -/
theorem discount_clamped_at_floor_witness :
    calculateDiscountPercentage 150 100 =
      round2 (max ((((100 : ℚ) - 150) / 100) * 100) (-100)) ∧
    calculateDiscountPercentage 150 0 = 0 ∧
    (-100 : ℚ) ≤ calculateDiscountPercentage 150 100 :=
  ⟨(discount_clamped_at_floor 150 100).2.1 (by norm_num),
   (discount_clamped_at_floor 150 0).1 (by norm_num),
   (discount_clamped_at_floor 150 100).2.2⟩

/-- C4: a title whose parenthetical-sum regex pass matched an outer weight
and a nonempty inner breakdown summing to it within 0.01 g makes the
parser return the outer weight (not the inner sum, not a single inner
value). -/
theorem paren_sum_returns_outer_weight (t : TitleScan) (outer : ℚ) (insides : List ℚ)
    (hp : t.parenMatch = some (outer, insides)) (hne : insides ≠ [])
    (htol : |outer - insides.sum| < 1/100) :
    extractWeight t = some outer := by
  unfold extractWeight
  rw [hp]
  exact if_pos ⟨hne, htol⟩

/-- C4 witness: the title scan of a title reading 4.5 Gm (0.5 Gm +
2 Gm + 2 Gm) returns the outer weight 4.5. -/
theorem paren_sum_returns_outer_weight_witness :
    extractWeight
      { parenMatch := some (9/2, [1/2, 2, 2]), hasPlus := true,
        plusSegmentWeights := [1/2, 2, 2], hyphenMatch := none,
        generalMatches := [9/2, 1/2, 2, 2] } = some (9/2) :=
  paren_sum_returns_outer_weight _ (9/2) [1/2, 2, 2] rfl (by simp) (by norm_num)

/-- C5: when no parenthetical, plus or hyphen pattern applies and the
candidates of the general weight scan — after excluding purity codes and
out-of-range values — are all numerically equal, the parser returns that
single value, not a sum. -/
theorem general_scan_equal_weights (t : TitleScan) (w : ℚ) (rest : List ℚ)
    (hparen : t.parenMatch = none) (hplus : t.hasPlus = false)
    (hhyph : t.hyphenMatch = none)
    (hfiltered : t.generalMatches.filter
      (fun x => decide (x ∉ purityCodes) && weightInRange x) = w :: rest)
    (hall : ∀ x ∈ rest, x = w) :
    extractWeight t = some w := by
  unfold extractWeight extractWeightPlus extractWeightHyphen extractWeightGeneral
  rw [hparen, hplus, hhyph]
  simp only [Bool.false_eq_true, if_false, hfiltered]
  have : rest.all (fun x => x == w) = true := by
    rw [List.all_eq_true]
    intro x hx
    exact beq_iff_eq.mpr (hall x hx)
  simp [this]

/-- C5 witness: a title scan with general matches `[22, 5, 5]` (the 22
being a purity code) returns 5, not 10. -/
theorem general_scan_equal_weights_witness :
    extractWeight
      { parenMatch := none, hasPlus := false, plusSegmentWeights := [],
        hyphenMatch := none, generalMatches := [22, 5, 5] } = some 5 :=
  general_scan_equal_weights _ 5 [5] rfl rfl rfl
    (by norm_num [purityCodes, weightInRange, List.filter]) (by simp)

/-- C10: the scraper call sites pass the boolean jewellery flag as the
product-type argument; a boolean never compares equal to the string
coin, so the making-charges key is jewellery-prefixed for every scraped
listing (coin-classified ones included) and the coin entries of the
making-charges table are never consulted by the scraping pipeline. -/
theorem scraper_always_jewellery_key (snap : Snapshot) (weight : ℚ)
    (purity : String) (isJewellery : Bool) :
    scraperExpectedPrice snap weight purity isJewellery =
      calculateExpectedPrice snap weight purity (.bool isJewellery) ∧
    chargesKey (.bool isJewellery) purity = "jewellery_" ++ purity ∧
    makingChargesPercent (.bool isJewellery) purity =
      lookupD MAKING_CHARGES ("jewellery_" ++ purity) (4/100) :=
  ⟨rfl, rfl, rfl⟩

/-- C8: the type classifier counts which coin keywords and which
jewellery keywords occur (case-insensitively) in the concatenated
title and description, and returns coin exactly when the coin count
strictly exceeds the jewellery count; ties (including zero–zero) give
jewellery.  It is a total function of its two string arguments, hence
deterministic and never failing. -/
theorem classifier_strict_majority (title description : String) :
    (determineProductType title description = "coin" ↔
      jewelleryCount title description < coinCount title description) ∧
    (coinCount title description ≤ jewelleryCount title description →
      determineProductType title description = "jewellery") := by
  unfold determineProductType
  split_ifs with h
  · exact ⟨⟨fun _ => h, fun _ => rfl⟩, fun hle => absurd h (not_lt.mpr hle)⟩
  · refine ⟨⟨fun hc => absurd hc (by decide), fun hlt => absurd hlt h⟩, fun _ => rfl⟩

/-- C8 witness: a Gold Pendant title has no coin keyword and one
jewellery keyword, so the tie-breaking direction gives jewellery. -/
theorem classifier_strict_majority_witness :
    coinCount "Gold Pendant" "" ≤ jewelleryCount "Gold Pendant" "" ∧
    determineProductType "Gold Pendant" "" = "jewellery" :=
  ⟨by decide, (classifier_strict_majority "Gold Pendant" "").2 (by decide)⟩

/-- C1: when the call reaches the upstream loop (no cache hit, and not the
rate-limited short-circuit) and every source fails, `get_live_gold_price`
still returns a snapshot — tagged `hardcoded_fallback` and built from the
hardcoded floor price when no cache file exists, and the persisted
snapshot re-tagged `cached_fallback` (with a fresh timestamp) when one
does; being a total function, the fallback path cannot raise. -/
theorem all_sources_fail_fallback (env : PriceEnv) (forceRefresh : Bool)
    (hmiss : cacheHit env forceRefresh = none)
    (hpath : MIN_API_INTERVAL ≤ env.now - env.lastApiCall ∨ env.cache = none)
    (hfail : ∀ r ∈ env.fetchResults, r = none) :
    (env.cache = none →
      (getLiveGoldPrice env forceRefresh).snapshot = hardcodedFallback env.now ∧
      (getLiveGoldPrice env forceRefresh).snapshot.source = "hardcoded_fallback") ∧
    (∀ c, env.cache = some c →
      (getLiveGoldPrice env forceRefresh).snapshot =
        { c with source := "cached_fallback", timestamp := env.now }) := by
  have hfs := firstSuccess_eq_none hfail
  unfold getLiveGoldPrice
  rw [hmiss, hfs]
  constructor
  · intro hnone
    rw [hnone]
    rcases Bool.eq_false_or_eq_true (decide (env.now - env.lastApiCall < MIN_API_INTERVAL))
      with hb | hb <;>
      simp [hb, calculateFallbackPrices, hardcodedFallback_source]
  · intro c hc
    have hb : decide (env.now - env.lastApiCall < MIN_API_INTERVAL) = false := by
      rcases hpath with h | h
      · simp [not_lt.mpr h]
      · rw [h] at hc; exact absurd hc (by simp)
    rw [hc, hb]
    simp [calculateFallbackPrices, hc]

/-- C1 witness: with an empty cache, both endpoints failing and the rate
limiter inactive, the returned snapshot is the hardcoded floor snapshot. -/
theorem all_sources_fail_fallback_witness :
    (getLiveGoldPrice
      { cache := none, now := 10, lastApiCall := 0, fetchResults := [none, none] }
      false).snapshot.source = "hardcoded_fallback" :=
  ((all_sources_fail_fallback
      { cache := none, now := 10, lastApiCall := 0, fetchResults := [none, none] }
      false rfl (Or.inr rfl) (by simp)).1 rfl).2

/-- C6: with `force_refresh` false and a persisted snapshot younger than
the 300 s TTL, `get_live_gold_price` returns that snapshot unchanged with
zero upstream attempts and no cache write; consequently two
`calculate_expected_price` calls whose environments share that cached
snapshot (any clock values within the TTL) produce identical
`total_expected`. -/
theorem cache_hit_idempotent (env₁ env₂ : PriceEnv) (c : Snapshot) (weight : ℚ)
    (purity : String) (productType : PyProductType)
    (h₁ : env₁.cache = some c) (h₂ : env₂.cache = some c)
    (hv₁ : env₁.now - c.timestamp < CACHE_TTL) (hv₂ : env₂.now - c.timestamp < CACHE_TTL) :
    getLiveGoldPrice env₁ false =
      { snapshot := c, apiAttempts := 0, cacheWritten := none } ∧
    (calculateExpectedPriceFull env₁ weight purity productType).total_expected =
      (calculateExpectedPriceFull env₂ weight purity productType).total_expected := by
  have hit : ∀ (env : PriceEnv), env.cache = some c → env.now - c.timestamp < CACHE_TTL →
      getLiveGoldPrice env false =
        { snapshot := c, apiAttempts := 0, cacheWritten := none } := by
    intro env hc hv
    unfold getLiveGoldPrice cacheHit
    rw [hc]
    simp [isCacheValid, hv]
  refine ⟨hit env₁ h₁ hv₁, ?_⟩
  unfold calculateExpectedPriceFull
  rw [hit env₁ h₁ hv₁, hit env₂ h₂ hv₂]

lemma cacheHit_cache {env : PriceEnv} {f : Bool} {c : Snapshot}
    (h : cacheHit env f = some c) : env.cache = some c := by
  unfold cacheHit at h
  split_ifs at h
  cases hc : env.cache with
  | none => rw [hc] at h; exact absurd h (by simp)
  | some d =>
    rw [hc] at h
    have h' : (if isCacheValid d env.now = true then some d else none) = some c := h
    split_ifs at h'
    exact h'

lemma firstSuccess_mem : ∀ {l : List (Option Snapshot)} {s : Snapshot} {n : Nat},
    firstSuccess l = some (s, n) → some s ∈ l := by
  intro l
  induction l with
  | nil => intro s n h; exact absurd h (by simp [firstSuccess])
  | cons a rest ih =>
    intro s n h
    cases a with
    | some b =>
      have h' : some (b, 1) = some (s, n) := h
      obtain ⟨hb, -⟩ := Prod.mk.injEq .. ▸ Option.some.inj h'
      exact hb ▸ List.mem_cons_self _ _
    | none =>
      simp only [firstSuccess] at h
      cases hfs : firstSuccess rest with
      | none => rw [hfs] at h; exact absurd h (by simp)
      | some p =>
        obtain ⟨s', n'⟩ := p
        rw [hfs] at h
        have h' : some (s', n' + 1) = some (s, n) := h
        obtain ⟨hs, -⟩ := Prod.mk.injEq .. ▸ Option.some.inj h'
        rw [← hs]
        exact List.mem_cons_of_mem _ (ih hfs)

/-- the four provenance tags a `get_live_gold_price` result can carry. -/
def sourceTags : List String :=
  ["live_api", "cached_rate_limited", "cached_fallback", "hardcoded_fallback"]

/-- a sample persisted snapshot (flat per-gram 999 landed price of 6000,
no raw karat table) used as a concrete input. -/
def snapFlat : Snapshot :=
  { timestamp := 0
    source := "live_api"
    spot_price_per_gram := 6000
    gold :=
    { spot_10g := 60000, retail_999_10g := 60700, rtgs_999_10g := 59400,
      withGst_999_10g := 59400, retail_22k_10g := 56202,
      retail_22k_with_gst_10g := 57888, pg_999_spot := 6000,
      pg_999_landed := 6000, pg_22k_spot := 5500, pg_22k_landed := 5500 }
    silver_per_gram := 75
    silver_per_kg := 75000
    rawGoldByKarat := none }

/-- C6 witness: a snapshot cached at time 0 is a cache hit at times 100
and 200 (both inside the 300 s TTL), and the two expected-price totals
agree. -/
theorem cache_hit_idempotent_witness :
    getLiveGoldPrice
      { cache := some snapFlat, now := 100, lastApiCall := 0, fetchResults := [] } false =
      { snapshot := snapFlat, apiAttempts := 0, cacheWritten := none } ∧
    (calculateExpectedPriceFull
      { cache := some snapFlat, now := 100, lastApiCall := 0, fetchResults := [] }
      10 "24K" (.str "jewellery")).total_expected =
    (calculateExpectedPriceFull
      { cache := some snapFlat, now := 200, lastApiCall := 0, fetchResults := [] }
      10 "24K" (.str "jewellery")).total_expected :=
  cache_hit_idempotent
    { cache := some snapFlat, now := 100, lastApiCall := 0, fetchResults := [] }
    { cache := some snapFlat, now := 200, lastApiCall := 0, fetchResults := [] }
    snapFlat 10 "24K" (.str "jewellery") rfl rfl
    (by norm_num [snapFlat, CACHE_TTL]) (by norm_num [snapFlat, CACHE_TTL])

/-- C7 counterexample: a call that hits the rate-limited path with a stale
cache present returns the tag cached_rate_limited, which is not among
the three tags the claim allows. -/
theorem source_tag_fourth_tag_cex :
    (getLiveGoldPrice
      { cache := some snapFlat, now := 1000, lastApiCall := 999,
        fetchResults := [none, none] } false).snapshot.source = "cached_rate_limited" ∧
    "cached_rate_limited" ∉ (["live_api", "cached_fallback", "hardcoded_fallback"] : List String) := by
  constructor
  · have hmiss : cacheHit
        { cache := some snapFlat, now := 1000, lastApiCall := 999,
          fetchResults := [none, none] } false = none := by
      unfold cacheHit
      norm_num [isCacheValid, snapFlat, CACHE_TTL]
    unfold getLiveGoldPrice
    rw [hmiss]
    have hb : decide ((1000 : ℚ) - 999 < MIN_API_INTERVAL) = true := by
      norm_num [MIN_API_INTERVAL]
    simp only [hb]
  · simp

/-- C7 (amended): every snapshot returned by `get_live_gold_price` carries
one of exactly four source tags — `live_api`, `cached_rate_limited`,
`cached_fallback`, `hardcoded_fallback` — provided the persisted cache
itself carries one of these tags and the endpoint parsers tag successes
`live_api` (which they always do); the function is total, so upstream
failures never surface as exceptions. -/
theorem source_tag_in_four (env : PriceEnv) (forceRefresh : Bool)
    (hcache : ∀ c, env.cache = some c → c.source ∈ sourceTags)
    (hapi : ∀ r ∈ env.fetchResults, ∀ s, r = some s → s.source = "live_api") :
    (getLiveGoldPrice env forceRefresh).snapshot.source ∈ sourceTags := by
  unfold getLiveGoldPrice
  cases hh : cacheHit env forceRefresh with
  | some c => exact hcache c (cacheHit_cache hh)
  | none =>
    cases hb : decide (env.now - env.lastApiCall < MIN_API_INTERVAL) with
    | true =>
      cases hc : env.cache with
      | some c => simp [sourceTags]
      | none =>
        cases hfs : firstSuccess env.fetchResults with
        | some p =>
          obtain ⟨s, n⟩ := p
          have : s.source = "live_api" :=
            hapi (some s) (firstSuccess_mem hfs) s rfl
          simp [this, sourceTags]
        | none => simp [calculateFallbackPrices, hc, hardcodedFallback_source, sourceTags]
    | false =>
      cases hfs : firstSuccess env.fetchResults with
      | some p =>
        obtain ⟨s, n⟩ := p
        have hs : s.source = "live_api" :=
          hapi (some s) (firstSuccess_mem hfs) s rfl
        cases hc : env.cache <;> simp [hs, sourceTags]
      | none =>
        cases hc : env.cache with
        | some c => simp [calculateFallbackPrices, sourceTags]
        | none => simp [calculateFallbackPrices, hardcodedFallback_source, sourceTags]

/-- C7 witness: a cold call with both endpoints failing returns the tag
`hardcoded_fallback`, one of the four. -/
theorem source_tag_in_four_witness :
    (getLiveGoldPrice
      { cache := none, now := 10, lastApiCall := 0, fetchResults := [none, none] }
      false).snapshot.source ∈ sourceTags :=
  source_tag_in_four
    { cache := none, now := 10, lastApiCall := 0, fetchResults := [none, none] }
    false (by simp) (by simp)

/-- C2 counterexample: for 10 g of 22K jewellery against a snapshot with a
999-landed per-gram price of 6000, `calculate_expected_price` returns
`total_expected` exactly equal to gold value + making charges + GST
(56652.06 = 55002 + 0 + 1650.06) — it does not strictly exceed that sum,
so no jewellery premium term is added. -/
theorem expected_price_no_premium_cex :
    (calculateExpectedPrice snapFlat 10 "22K" (.str "jewellery")).total_expected =
      (calculateExpectedPrice snapFlat 10 "22K" (.str "jewellery")).gold_value +
      (calculateExpectedPrice snapFlat 10 "22K" (.str "jewellery")).making_charges +
      (calculateExpectedPrice snapFlat 10 "22K" (.str "jewellery")).gst ∧
    ¬((calculateExpectedPrice snapFlat 10 "22K" (.str "jewellery")).gold_value +
      (calculateExpectedPrice snapFlat 10 "22K" (.str "jewellery")).making_charges +
      (calculateExpectedPrice snapFlat 10 "22K" (.str "jewellery")).gst <
      (calculateExpectedPrice snapFlat 10 "22K" (.str "jewellery")).total_expected) := by
  have hgv : (calculateExpectedPrice snapFlat 10 "22K" (.str "jewellery")).gold_value
      = round2 (6000 * (9167/10000) * 10) := rfl
  have hmc : (calculateExpectedPrice snapFlat 10 "22K" (.str "jewellery")).making_charges
      = round2 (6000 * (9167/10000) * 10 * 0) := rfl
  have hgst : (calculateExpectedPrice snapFlat 10 "22K" (.str "jewellery")).gst
      = round2 ((6000 * (9167/10000) * 10 + 6000 * (9167/10000) * 10 * 0)
          * (GST_RATE/100)) := rfl
  have htot : (calculateExpectedPrice snapFlat 10 "22K" (.str "jewellery")).total_expected
      = round2 (6000 * (9167/10000) * 10 + 6000 * (9167/10000) * 10 * 0
          + (6000 * (9167/10000) * 10 + 6000 * (9167/10000) * 10 * 0)
            * (GST_RATE/100)) := rfl
  rw [hgv, hmc, hgst, htot]
  norm_num [round2, round_eq, Int.floor_eq_iff, GST_RATE]

/-- C2 (amended): the expected-price calculator never adds a flat
jewellery premium — for every snapshot, weight and purity (24K or not)
the returned total of a jewellery item is exactly the rounded product of
the raw gold value, one plus the making-charges rate, and one plus the
GST rate, i.e. gold value plus making charges plus GST and nothing else;
the jewellery-premium constant enters only the retail-22K fields of a
snapshot (e.g. in the fallback calculator), never the expected-price
model. -/
theorem expected_price_no_premium (snap : Snapshot) (weight : ℚ) (purity : String) :
    (calculateExpectedPrice snap weight purity (.str "jewellery")).total_expected =
      round2 (basePricePerGram snap purity (lookupD PURITY_MAPPING purity (9167/10000))
        * weight * (1 + makingChargesPercent (.str "jewellery") purity)
        * (1 + GST_RATE/100)) := by
  unfold calculateExpectedPrice
  exact congrArg round2 (by ring)

lemma filterLoop_sent_append (ps : List Product) :
    ∀ sent, ∃ ks, (filterLoop sent ps).2 = ks ++ sent := by
  induction ps with
  | nil => intro sent; exact ⟨[], rfl⟩
  | cons p rest ih =>
    intro sent
    unfold filterLoop
    by_cases hk : productKey p ∈ sent
    · rw [if_pos hk]; exact ih sent
    · rw [if_neg hk]
      by_cases hm : meetsCriteria p = true
      · rw [if_pos hm]
        obtain ⟨ks, hks⟩ := ih (productKey p :: sent)
        exact ⟨ks ++ [productKey p], by rw [hks]; simp⟩
      · rw [if_neg hm]; exact ih sent

lemma filterLoop_mem (ps : List Product) :
    ∀ sent p, p ∈ (filterLoop sent ps).1 →
      meetsCriteria p = true ∧ productKey p ∉ sent := by
  induction ps with
  | nil => intro sent p hp; exact absurd hp (by simp [filterLoop])
  | cons q rest ih =>
    intro sent p hp
    unfold filterLoop at hp
    by_cases hk : productKey q ∈ sent
    · rw [if_pos hk] at hp; exact ih sent p hp
    · rw [if_neg hk] at hp
      by_cases hm : meetsCriteria q = true
      · rw [if_pos hm] at hp
        rcases List.mem_cons.mp hp with h | h
        · exact h ▸ ⟨hm, hk⟩
        · obtain ⟨hme, hnk⟩ := ih (productKey q :: sent) p h
          exact ⟨hme, fun hmem => hnk (List.mem_cons_of_mem _ hmem)⟩
      · rw [if_neg hm] at hp; exact ih sent p hp

/-- C9 (amended): `filter_good_deals` suppresses a listing exactly when its
identity key is already in `sent_alerts` at the moment it is examined; the
key of every criteria-meeting listing is recorded at evaluation time —
within the same cycle, and whether or not the listing survives the final
top-4 truncation — and `sent_alerts` only ever grows (it is never pruned,
hence unbounded across cycles). -/
theorem dedup_key_recording (sent : List (String × String × ℚ)) (ps : List Product) :
    (∃ ks, (filterLoop sent ps).2 = ks ++ sent) ∧
    (∀ p ∈ (filterLoop sent ps).1, meetsCriteria p = true ∧ productKey p ∉ sent) ∧
    (∀ p, productKey p ∈ sent → p ∉ (filterLoop sent ps).1) ∧
    (∀ p ∈ (filterGoodDeals sent ps).1, p ∈ (filterLoop sent ps).1) := by
  refine ⟨filterLoop_sent_append ps sent, filterLoop_mem ps sent, ?_, ?_⟩
  · intro p hkey hp
    exact (filterLoop_mem ps sent p hp).2 hkey
  · intro p hp
    unfold filterGoodDeals at hp
    have := List.take_subset 4 _ hp
    exact ((List.mergeSort_perm (filterLoop sent ps).1 _).mem_iff).mp this

/-- a sample scraped product record (1 g, 24K, selling price 2000,
per-gram 5000) with the given title and discount. -/
def dealP (t : String) (d : ℚ) : Product :=
  { source := "AJIO", title := t, weight_grams := 1, purity := "24K",
    discount_percent := d, price_per_gram := 5000, selling_price := 2000 }

/-- C9 witness: a listing whose key is already recorded is suppressed. -/
theorem dedup_key_recording_witness :
    dealP "A" 5 ∉ (filterLoop [productKey (dealP "A" 5)] [dealP "A" 5]).1 :=
  (dedup_key_recording [productKey (dealP "A" 5)] [dealP "A" 5]).2.2.1 (dealP "A" 5)
    (List.mem_singleton_self _)

/-- C9 counterexample: in the very first evaluation cycle (empty recency
set, so nothing was ever emitted in a prior cycle) two listings sharing
the same identity key are processed; the second meets every
admission criterion and was never previously emitted, yet it is
suppressed — de-duplication fires on same-cycle recording, not only on
prior-cycle emission. -/
theorem dedup_same_cycle_cex :
    meetsCriteria (dealP "A" 7) = true ∧
    (filterGoodDeals [] [dealP "A" 5, dealP "A" 7]).1 = [dealP "A" 5] ∧
    dealP "A" 7 ∉ (filterGoodDeals [] [dealP "A" 5, dealP "A" 7]).1 ∧
    dealP "A" 7 ≠ dealP "A" 5 := by
  have hmax : maxPricePerGram "24K" = 18000 := rfl
  have hm7 : meetsCriteria (dealP "A" 7) = true := by
    simp only [meetsCriteria, dealP, hmax, MIN_DISCOUNT_PERCENTAGE, MIN_WEIGHT,
      Bool.and_eq_true, decide_eq_true_eq]
    norm_num
  have hm5 : meetsCriteria (dealP "A" 5) = true := by
    simp only [meetsCriteria, dealP, hmax, MIN_DISCOUNT_PERCENTAGE, MIN_WEIGHT,
      Bool.and_eq_true, decide_eq_true_eq]
    norm_num
  have hkey : productKey (dealP "A" 7) = productKey (dealP "A" 5) := rfl
  have hstep : filterLoop [productKey (dealP "A" 5)] [dealP "A" 7]
      = ([], [productKey (dealP "A" 5)]) := by
    unfold filterLoop
    rw [if_pos (hkey ▸ List.mem_singleton_self (productKey (dealP "A" 5)))]
    rfl
  have hloop : filterLoop [] [dealP "A" 5, dealP "A" 7]
      = ([dealP "A" 5], [productKey (dealP "A" 5)]) := by
    unfold filterLoop
    rw [if_neg (List.not_mem_nil _), if_pos hm5, hstep]
  have hout : (filterGoodDeals [] [dealP "A" 5, dealP "A" 7]).1 = [dealP "A" 5] := by
    unfold filterGoodDeals
    rw [hloop]
    simp [List.mergeSort_singleton]
  have hne : dealP "A" 7 ≠ dealP "A" 5 := by
    intro h
    have : (7 : ℚ) = 5 := congrArg Product.discount_percent h
    norm_num at this
  refine ⟨hm7, hout, ?_, hne⟩
  rw [hout]
  simp [hne]

end GoldDealFinder
